import Mathlib

/-
Verification of the adaptive multi-client rendering concurrency engine of
viewer.py (gaussian-splatting-lightning live viewer).

The embedding below translates the parts of viewer.py that the verified
properties depend on:
  - Client.__init__ / the camera on_update handler   (lines 41-63)
  - Client.render_and_send resolution computation    (lines 89-96)
  - Client.render_and_send post-processing           (lines 114-122)
  - Client.run, the per-session render loop          (lines 124-151)
  - Viewer._handle_option_updated                    (lines 346-352)
  - Viewer._handle_new_client / _handle_client_disconnect (lines 354-366)
  - the on_update registrations in Viewer.start      (lines 300-341)
  - Viewer._reorient.rotation_matrix                 (lines 244-269)

Real-valued quantities (aspect ratios, image intensities, vector components)
are modelled over the rationals; Python int() truncation is modelled
explicitly.  The square root used by vector normalization in the orientation
solver is modelled by ratSqrt, which agrees with the exact square root on
every rational whose numerator and denominator are perfect squares; all
concrete inputs used in proofs about the solver keep every norm at exactly 1,
where the model coincides with exact real arithmetic.
-/

namespace GSViewer

set_option maxRecDepth 4000

/-- Python int() applied to a real value truncates toward zero. -/
def pyInt (q : ℚ) : ℤ := if 0 ≤ q then ⌊q⌋ else ⌈q⌉

/-- Resolution computation of Client.render_and_send (viewer.py lines 89-96):
image_height = max_res; image_width = int(image_height * aspect_ratio);
if image_width > max_res: image_width = max_res;
image_height = int(image_width / aspect_ratio). -/
def calculateResolution (maxRes : ℤ) (aspect : ℚ) : ℤ × ℤ :=
  let imageHeight : ℤ := maxRes
  let imageWidth : ℤ := pyInt ((imageHeight : ℚ) * aspect)
  if imageWidth > maxRes then
    (maxRes, pyInt ((maxRes : ℚ) / aspect))
  else
    (imageWidth, imageHeight)

/-- The value "low" or "high" of Client.state (viewer.py line 54). -/
inductive RState where
| low
| high
deriving DecidableEq

/-- The fields of a viser camera handle that the viewer reads per client:
cam.aspect and cam.fov (viewer.py lines 90, 99). -/
structure Camera where
  aspect : ℚ
  fov : ℚ
deriving DecidableEq

/-- The per-session mutable state of a Client thread (viewer.py lines 41-63):
last_camera, state, stop_client and the render_trigger event flag. -/
structure ClientState where
  lastCamera : Option Camera
  state : RState
  stopClient : Bool
  renderTrigger : Bool
deriving DecidableEq

/-- Client.__init__ (viewer.py lines 50-56): last_camera = None,
state = "low", stop_client = False, render_trigger initially unset. -/
def initialClientState : ClientState :=
  { lastCamera := none, state := .low, stopClient := false, renderTrigger := false }

/-- The camera on_update handler (viewer.py lines 58-63): store the new
camera, force state to "low", set the render trigger. -/
def onCameraUpdate (s : ClientState) (cam : Camera) : ClientState :=
  { s with lastCamera := some cam, state := .low, renderTrigger := true }

/-- Outcome of one call to Client.render_and_send: either a frame was sent,
or some exception was raised during the transform/dispatch/send cycle. -/
inductive RenderOutcome where
| ok
| renderError
deriving DecidableEq

/-- Result of Client.render_and_send (viewer.py lines 65-122) given the
session state and the outcome of the external transform/render/send calls.
When last_camera is None the body raises unconditionally: line 90 evaluates
cam.aspect on cam = self.last_camera = None. -/
def renderAndSendResult (s : ClientState) (ext : RenderOutcome) : RenderOutcome :=
  match s.lastCamera with
  | none => .renderError
  | some _ => ext

/-- Observable result of a single iteration of the while-loop in Client.run
(viewer.py lines 125-149).  next = none means the loop broke out, after which
Client._destroy runs (line 151); bodyExecuted means render_and_send was
entered; rendered means render_and_send returned normally (a frame was sent). -/
structure StepResult where
  next : Option ClientState
  bodyExecuted : Bool
  rendered : Bool
deriving DecidableEq

/-- One iteration of Client.run (viewer.py lines 125-149).  The bounded wait
render_trigger.wait(0.2) returns the current value of the trigger flag; the
iteration then checks stop_client, handles the timeout path (promote "low" to
"high" once when a camera is cached, else skip), clears the trigger and calls
render_and_send inside try/except, breaking out of the loop on any error. -/
def runStep (s : ClientState) (ext : RenderOutcome) : StepResult :=
  if s.stopClient then
    { next := none, bodyExecuted := false, rendered := false }
  else if s.renderTrigger then
    let s1 := { s with renderTrigger := false }
    match renderAndSendResult s1 ext with
    | .ok => { next := some s1, bodyExecuted := true, rendered := true }
    | .renderError => { next := none, bodyExecuted := true, rendered := false }
  else
    match s.lastCamera with
    | none => { next := some s, bodyExecuted := false, rendered := false }
    | some _ =>
      if s.state = .low then
        let s1 := { s with state := .high, renderTrigger := false }
        match renderAndSendResult s1 ext with
        | .ok => { next := some s1, bodyExecuted := true, rendered := true }
        | .renderError => { next := none, bodyExecuted := true, rendered := false }
      else
        { next := some s, bodyExecuted := false, rendered := false }

/-- Run n consecutive loop iterations in which no external event arrives (no
pose update, no broadcast, no stop request) and every render succeeds;
returns the final session state and the number of frames rendered. -/
def runIdle : ClientState → ℕ → ClientState × ℕ
  | s, 0 => (s, 0)
  | s, n + 1 =>
    let res := runStep s .ok
    match res.next with
    | some s1 =>
      let rest := runIdle s1 n
      (rest.1, (if res.rendered then 1 else 0) + rest.2)
    | none => (s, if res.rendered then 1 else 0)

/-- Per-session effect of Viewer._handle_option_updated (viewer.py lines
349-350): state forced to "low" and the render trigger set. -/
def forceLowAndSignal (c : ClientState) : ClientState :=
  { c with state := .low, renderTrigger := true }

/-- The live-session map Viewer.clients (viewer.py line 212): a Python dict
keyed by client id, modelled as an association list with unique keys. -/
abbrev Registry := List (ℕ × ClientState)

/-- Dictionary lookup self.clients[id]. -/
def regLookup : Registry → ℕ → Option ClientState
  | [], _ => none
  | e :: rest, id => if e.1 = id then some e.2 else regLookup rest id

/-- Dictionary deletion del self.clients[id]; on a unique-key association
list removing every binding of the key coincides with dict deletion. -/
def regRemove : Registry → ℕ → Registry
  | [], _ => []
  | e :: rest, id => if e.1 = id then regRemove rest id else e :: regRemove rest id

/-- Viewer._handle_new_client (viewer.py lines 354-359): create a fresh
client thread and store it under its client id. -/
def handleNewClient (r : Registry) (id : ℕ) : Registry :=
  r ++ [(id, initialClientState)]

/-- Viewer._handle_option_updated (viewer.py lines 346-352): iterate over all
live sessions, forcing each to "low" and signalling it. -/
def handleOptionUpdated (r : Registry) : Registry :=
  r.map (fun e => (e.1, forceLowAndSignal e.2))

/-- Viewer._handle_client_disconnect (viewer.py lines 361-366):
try: clients[id].stop(); del clients[id]; except: print(err).
Returns the new registry together with whether the except branch printed a
caught exception (true exactly when the id was absent, raising KeyError). -/
def handleClientDisconnect (r : Registry) (id : ℕ) : Registry × Bool :=
  match regLookup r id with
  | some _ => (regRemove r id, false)
  | none => (r, true)

/-- Registry effect of a session dying through the except branch of
Client.run (viewer.py lines 146-151) followed by Client._destroy (lines
162-167): neither touches Viewer.clients, so the registry is unchanged. -/
def registryAfterRenderError (r : Registry) (_id : ℕ) : Registry := r

/-- The five live-mutable render options exposed in Viewer.start
(viewer.py lines 300-341). -/
inductive OptionField where
| maxResWhenStatic
| jpegQualityWhenStatic
| maxResWhenMoving
| jpegQualityWhenMoving
| scalingModifier
deriving DecidableEq

/-- Which option sliders have on_update(self._handle_option_updated)
registered in Viewer.start: lines 308 and 316 register the two static
options and line 341 registers the scaling modifier; the two when-moving
sliders (lines 318-331) have no on_update registration. -/
def registersBroadcast : OptionField → Bool
  | .maxResWhenStatic => true
  | .jpegQualityWhenStatic => true
  | .maxResWhenMoving => false
  | .jpegQualityWhenMoving => false
  | .scalingModifier => true

/-- Pointwise effect of torch.clamp(image, max=1.) (viewer.py line 116):
only an upper bound is applied. -/
def clampMax1 (q : ℚ) : ℚ := min q 1

/-- A 3-vector with rational components, as used by the up-vector
computation of Viewer._reorient. -/
structure Vec3 where
  x : ℚ
  y : ℚ
  z : ℚ
deriving DecidableEq

/-- Componentwise vector sum. -/
def vadd (a b : Vec3) : Vec3 := ⟨a.x + b.x, a.y + b.y, a.z + b.z⟩

/-- Componentwise vector difference. -/
def vsub (a b : Vec3) : Vec3 := ⟨a.x - b.x, a.y - b.y, a.z - b.z⟩

/-- Scalar multiple of a vector. -/
def vsmul (q : ℚ) (a : Vec3) : Vec3 := ⟨q * a.x, q * a.y, q * a.z⟩

/-- Dot product torch.dot(a, b). -/
def vdot (a b : Vec3) : ℚ := a.x * b.x + a.y * b.y + a.z * b.z

/-- Cross product torch.cross(a, b). -/
def vcross (a b : Vec3) : Vec3 :=
  ⟨a.y * b.z - a.z * b.y, a.z * b.x - a.x * b.z, a.x * b.y - a.y * b.x⟩

/-- Squared Euclidean norm; torch.linalg.norm(v) squared is exactly this. -/
def vnormSq (v : Vec3) : ℚ := v.x * v.x + v.y * v.y + v.z * v.z

/-- Rational square root: exact whenever the numerator and denominator of q
are perfect squares (in particular ratSqrt 1 = 1); this models the real
square root on the inputs appearing in the proofs below, all of whose norms
are exactly 1. -/
def ratSqrt (q : ℚ) : ℚ := (Nat.sqrt q.num.toNat : ℚ) / (Nat.sqrt q.den : ℚ)

/-- Normalization a / torch.linalg.norm(a) (viewer.py lines 253-254). -/
def vnormalize (v : Vec3) : Vec3 :=
  let n := ratSqrt (vnormSq v)
  ⟨v.x / n, v.y / n, v.z / n⟩

/-- A 3x3 matrix with rational entries. -/
structure Mat3 where
  m00 : ℚ
  m01 : ℚ
  m02 : ℚ
  m10 : ℚ
  m11 : ℚ
  m12 : ℚ
  m20 : ℚ
  m21 : ℚ
  m22 : ℚ
deriving DecidableEq

/-- The identity matrix torch.eye(3). -/
def matId : Mat3 := ⟨1, 0, 0, 0, 1, 0, 0, 0, 1⟩

/-- Matrix sum. -/
def matAdd (a b : Mat3) : Mat3 :=
  ⟨a.m00 + b.m00, a.m01 + b.m01, a.m02 + b.m02,
   a.m10 + b.m10, a.m11 + b.m11, a.m12 + b.m12,
   a.m20 + b.m20, a.m21 + b.m21, a.m22 + b.m22⟩

/-- Matrix product. -/
def matMul (a b : Mat3) : Mat3 :=
  ⟨a.m00 * b.m00 + a.m01 * b.m10 + a.m02 * b.m20,
   a.m00 * b.m01 + a.m01 * b.m11 + a.m02 * b.m21,
   a.m00 * b.m02 + a.m01 * b.m12 + a.m02 * b.m22,
   a.m10 * b.m00 + a.m11 * b.m10 + a.m12 * b.m20,
   a.m10 * b.m01 + a.m11 * b.m11 + a.m12 * b.m21,
   a.m10 * b.m02 + a.m11 * b.m12 + a.m12 * b.m22,
   a.m20 * b.m00 + a.m21 * b.m10 + a.m22 * b.m20,
   a.m20 * b.m01 + a.m21 * b.m11 + a.m22 * b.m21,
   a.m20 * b.m02 + a.m21 * b.m12 + a.m22 * b.m22⟩

/-- Scalar multiple of a matrix. -/
def matSmul (q : ℚ) (a : Mat3) : Mat3 :=
  ⟨q * a.m00, q * a.m01, q * a.m02,
   q * a.m10, q * a.m11, q * a.m12,
   q * a.m20, q * a.m21, q * a.m22⟩

/-- The skew-symmetric matrix built from v (viewer.py lines 262-268). -/
def skewMat (v : Vec3) : Mat3 :=
  ⟨0, -v.z, v.y,
   v.z, 0, -v.x,
   -v.y, v.x, 0⟩

/-- The anti-parallel detection c less than -1 + 1e-8 (viewer.py line 258),
applied to the dot product of the two normalized vectors. -/
def nearlyOpposite (c : ℚ) : Bool := c < -1 + 1 / 100000000

/-- The regularized denominator s ** 2 + 1e-8 of the Rodrigues scale factor
(viewer.py line 269), where s = torch.linalg.norm(v) is the norm of the
cross product, so s ** 2 is exactly vnormSq v. -/
def rodriguesDenominator (v : Vec3) : ℚ := vnormSq v + 1 / 100000000

/-- The rotation matrix rotation_matrix(a, b) of Viewer._reorient (viewer.py
lines 244-269), with the recursion made explicit: fuel bounds the number of
calls, and rand models the stream of torch.rand(3) draws (each component in
the interval from 0 inclusive to 1 exclusive); a result of none means the
recursion performed fuel retries without returning.  eps is
(rand(3) - 0.5) * 0.01 as in line 259. -/
def rotationMatrixAux : ℕ → (ℕ → Vec3) → Vec3 → Vec3 → Option Mat3
  | 0, _, _, _ => none
  | fuel + 1, rand, a0, b0 =>
    let a := vnormalize a0
    let b := vnormalize b0
    let v := vcross a b
    let c := vdot a b
    if nearlyOpposite c then
      let eps := vsmul (1 / 100) (vsub (rand 0) ⟨1 / 2, 1 / 2, 1 / 2⟩)
      rotationMatrixAux fuel (fun k => rand (k + 1)) (vadd a eps) b
    else
      let s2 := vnormSq v
      some (matAdd (matAdd matId (skewMat v))
        (matSmul ((1 - c) / (s2 + 1 / 100000000)) (matMul (skewMat v) (skewMat v))))

/-- The stream of torch.rand(3) draws in which every draw is (0.5, 0.5, 0.5),
making the perturbation eps = (rand(3) - 0.5) * 0.01 the zero vector. -/
def halfStream : ℕ → Vec3 := fun _ => ⟨1 / 2, 1 / 2, 1 / 2⟩

/-- Post-processing of the rendered image (viewer.py lines 116-117):
clamp with max=1. then permute axes (1, 2, 0), taking the channel-height-
width tensor to height-width-channel layout. -/
def postProcess {h w : ℕ} (img : Fin 3 → Fin h → Fin w → ℚ) :
    Fin h → Fin w → Fin 3 → ℚ :=
  fun y x c => clampMax1 (img c y x)

theorem ratSqrt_one : ratSqrt 1 = 1 := by
  simp [ratSqrt]

theorem vnormalize_unit {v : Vec3} (h : vnormSq v = 1) : vnormalize v = v := by
  cases v
  simp [vnormalize, h, ratSqrt_one]

theorem regLookup_regRemove_self (r : Registry) (id : ℕ) :
    regLookup (regRemove r id) id = none := by
  induction r with
  | nil => rfl
  | cons e rest ih =>
      by_cases h : e.1 = id
      · simpa [regRemove, h] using ih
      · simp [regRemove, regLookup, h, ih]

theorem regLookup_handleOptionUpdated (r : Registry) (id : ℕ) :
    regLookup (handleOptionUpdated r) id = (regLookup r id).map forceLowAndSignal := by
  induction r with
  | nil => rfl
  | cons e rest ih =>
      by_cases h : e.1 = id
      · simp [handleOptionUpdated, regLookup, h]
      · simpa [handleOptionUpdated, regLookup, h] using ih

/-- C4: immediately after the camera on_update handler processes a
pose-update event, the session state is Low and the latest-pose field holds
exactly the delivered pose, overwriting whatever pose was cached before
(latest-wins coalescing, never queued). -/
theorem onCameraUpdate_sets_low_and_overwrites (s : ClientState) (cam : Camera) :
    (onCameraUpdate s cam).state = .low ∧ (onCameraUpdate s cam).lastCamera = some cam :=
  ⟨rfl, rfl⟩

/-- C9 counterexample: the post-processing of the rendered image does not
clamp from below; an intensity of -1 passes through unchanged, so the
claimed two-sided clamp into the valid range fails at this concrete image. -/
theorem postProcess_no_lower_clamp :
    ¬ (0 ≤ postProcess (fun _ _ _ => (-1 : ℚ) : Fin 3 → Fin 1 → Fin 1 → ℚ) 0 0 0) := by
  decide

/-- C9 (amended): before the image is sent, each value of the rendered
output is clamped from above at 1 (no lower clamp is applied) and the axes
are reordered from channel-row-column to the transport's row-column-channel
layout: the post-processed value at (y, x, c) is exactly the upper-clamped
input value at (c, y, x). -/
theorem postProcess_clamps_above_and_permutes {h w : ℕ}
    (img : Fin 3 → Fin h → Fin w → ℚ) (y : Fin h) (x : Fin w) (c : Fin 3) :
    postProcess img y x c ≤ 1 ∧ postProcess img y x c = clampMax1 (img c y x) :=
  ⟨min_le_right _ _, rfl⟩

/-- C10: whenever the two normalized input vectors are not detected as
nearly anti-parallel, the Rodrigues construction divides by the squared
cross-product norm plus the positive epsilon 1e-8, which is strictly
positive for every input, including parallel vectors whose cross product
is exactly zero. -/
theorem rodriguesDenominator_pos (a b : Vec3)
    (_h : nearlyOpposite (vdot (vnormalize a) (vnormalize b)) = false) :
    0 < rodriguesDenominator (vcross (vnormalize a) (vnormalize b)) := by
  have hx := mul_self_nonneg (vcross (vnormalize a) (vnormalize b)).x
  have hy := mul_self_nonneg (vcross (vnormalize a) (vnormalize b)).y
  have hz := mul_self_nonneg (vcross (vnormalize a) (vnormalize b)).z
  unfold rodriguesDenominator vnormSq
  nlinarith [hx, hy, hz]

theorem nearlyOpposite_one_false :
    nearlyOpposite (vdot (vnormalize ⟨1, 0, 0⟩) (vnormalize ⟨1, 0, 0⟩)) = false := by
  rw [vnormalize_unit (by norm_num [vnormSq])]
  simp only [nearlyOpposite, vdot, decide_eq_false_iff_not]
  norm_num

/-- Witness for C10 at the concrete parallel pair a = b = (1, 0, 0), whose
cross product is exactly zero. -/
theorem rodriguesDenominator_pos_witness :
    nearlyOpposite (vdot (vnormalize ⟨1, 0, 0⟩) (vnormalize ⟨1, 0, 0⟩)) = false ∧
    0 < rodriguesDenominator (vcross (vnormalize ⟨1, 0, 0⟩) (vnormalize ⟨1, 0, 0⟩)) :=
  ⟨nearlyOpposite_one_false,
   rodriguesDenominator_pos ⟨1, 0, 0⟩ ⟨1, 0, 0⟩ nearlyOpposite_one_false⟩

/-- C5: the render loop body can be entered without a cached pose.  A fresh
session (last_camera = None) whose trigger is set by an option broadcast
wakes up, enters render_and_send, dereferences the absent pose (cam.aspect
on None raises) and the session loop breaks out and dies, contradicting the
guard the timeout path applies; evaluated at the concrete failing input. -/
theorem renderBody_entered_without_pose :
    regLookup (handleOptionUpdated (handleNewClient [] 0)) 0 =
      some (⟨none, .low, false, true⟩ : ClientState) ∧
    (runStep (⟨none, .low, false, true⟩ : ClientState) .ok).bodyExecuted = true ∧
    (runStep (⟨none, .low, false, true⟩ : ClientState) .ok).next = none := by
  refine ⟨rfl, rfl, rfl⟩

/-- C7 counterexample: handling a disconnect for an absent connection id is
not silent; the KeyError raised by the dict subscript is caught and printed
(the second component records that the except branch printed the error). -/
theorem handleClientDisconnect_prints_on_missing :
    ¬ ((handleClientDisconnect [] 3).2 = false) := by
  decide

/-- C7 (amended): handling a disconnect removes the matching session from
the registry when present; a disconnect for an id no longer in the registry
leaves the registry unchanged (idempotent, same observable registry effect
as a single removal), but the caught KeyError is printed rather than being
silently ignored. -/
theorem handleClientDisconnect_idempotent (r : Registry) (id : ℕ) :
    ((∃ c, regLookup r id = some c) →
      handleClientDisconnect r id = (regRemove r id, false)) ∧
    (regLookup r id = none → handleClientDisconnect r id = (r, true)) ∧
    (handleClientDisconnect (handleClientDisconnect r id).1 id).1 =
      (handleClientDisconnect r id).1 := by
  refine ⟨?_, ?_, ?_⟩
  · rintro ⟨c, hc⟩
    simp [handleClientDisconnect, hc]
  · intro hc
    simp [handleClientDisconnect, hc]
  · cases hc : regLookup r id with
    | none => simp [handleClientDisconnect, hc]
    | some c => simp [handleClientDisconnect, hc, regLookup_regRemove_self]

/-- Witness for C7 at a concrete one-session registry and at the empty
registry. -/
theorem handleClientDisconnect_idempotent_witness :
    handleClientDisconnect [(5, initialClientState)] 5 =
      (regRemove [(5, initialClientState)] 5, false) ∧
    handleClientDisconnect [] 5 = ([], true) ∧
    (handleClientDisconnect (handleClientDisconnect [(5, initialClientState)] 5).1 5).1 =
      (handleClientDisconnect [(5, initialClientState)] 5).1 := by
  refine ⟨?_, ?_, (handleClientDisconnect_idempotent [(5, initialClientState)] 5).2.2⟩
  · exact (handleClientDisconnect_idempotent [(5, initialClientState)] 5).1
      ⟨initialClientState, by decide⟩
  · exact (handleClientDisconnect_idempotent [] 5).2.1 (by decide)

/-- C6 counterexample: not every live-mutable option registers the
onOptionsChanged broadcast; the max-resolution-when-moving slider has no
on_update registration in Viewer.start. -/
theorem broadcast_not_registered_for_moving :
    ¬ (∀ f : OptionField, registersBroadcast f = true) := by
  intro h
  exact absurd (h .maxResWhenMoving) (by decide)

/-- C6 (amended): mutations of the static max resolution, the static output
quality and the scaling modifier register the onOptionsChanged broadcast,
while the two when-moving options register no broadcast handler; and the
broadcast forces every live session to Low and sets its render trigger. -/
theorem optionBroadcast_registration_and_effect :
    (registersBroadcast .maxResWhenStatic = true ∧
     registersBroadcast .jpegQualityWhenStatic = true ∧
     registersBroadcast .scalingModifier = true ∧
     registersBroadcast .maxResWhenMoving = false ∧
     registersBroadcast .jpegQualityWhenMoving = false) ∧
    ∀ (r : Registry) (id : ℕ) (c : ClientState), regLookup r id = some c →
      regLookup (handleOptionUpdated r) id = some (forceLowAndSignal c) ∧
      (forceLowAndSignal c).state = .low ∧ (forceLowAndSignal c).renderTrigger = true := by
  refine ⟨⟨rfl, rfl, rfl, rfl, rfl⟩, ?_⟩
  intro r id c hc
  refine ⟨?_, rfl, rfl⟩
  rw [regLookup_handleOptionUpdated, hc]
  rfl

/-- Witness for C6 at a concrete one-session registry. -/
theorem optionBroadcast_effect_witness :
    regLookup (handleOptionUpdated [(4, initialClientState)]) 4 =
      some (forceLowAndSignal initialClientState) ∧
    (forceLowAndSignal initialClientState).state = .low ∧
    (forceLowAndSignal initialClientState).renderTrigger = true :=
  optionBroadcast_registration_and_effect.2 [(4, initialClientState)] 4
    initialClientState (by decide)

theorem runIdle_high_fixed (cam : Camera) (m : ℕ) :
    runIdle ⟨some cam, .high, false, false⟩ m = (⟨some cam, .high, false, false⟩, 0) := by
  induction m with
  | zero => rfl
  | succ k ih =>
      have hstep : runStep ⟨some cam, .high, false, false⟩ .ok =
          ⟨some ⟨some cam, .high, false, false⟩, false, false⟩ := rfl
      simp [runIdle, hstep, ih]

/-- C3: a session in Low with a cached pose whose bounded wait times out with
no pose update and no broadcast (so the trigger stays unset and only timeout
iterations run) transitions to High and renders exactly once; every further
timeout iteration while it stays High changes nothing and renders nothing. -/
theorem lowIdle_promotes_once (cam : Camera) (n : ℕ) (hn : 1 ≤ n) :
    runIdle ⟨some cam, .low, false, false⟩ n = (⟨some cam, .high, false, false⟩, 1) := by
  obtain ⟨m, rfl⟩ : ∃ m, n = m + 1 := ⟨n - 1, (Nat.succ_pred_eq_of_pos hn).symm⟩
  have hstep : runStep ⟨some cam, .low, false, false⟩ .ok =
      ⟨some ⟨some cam, .high, false, false⟩, true, true⟩ := rfl
  simp [runIdle, hstep, runIdle_high_fixed]

/-- Witness for C3 at a concrete camera and three idle iterations. -/
theorem lowIdle_promotes_once_witness :
    runIdle ⟨some ⟨2, 1⟩, .low, false, false⟩ 3 = (⟨some ⟨2, 1⟩, .high, false, false⟩, 1) :=
  lowIdle_promotes_once ⟨2, 1⟩ 3 (by norm_num)

/-- C1 counterexample: when one of three live sessions dies from a render
error, the registry does not shrink; its length stays 3 and the failed
session is still found in the live-session map. -/
theorem renderError_registry_not_shrunk :
    ¬ (((registryAfterRenderError
          [(0, ⟨some ⟨2, 1⟩, .low, false, true⟩),
           (1, ⟨some ⟨2, 1⟩, .low, false, true⟩),
           (2, ⟨some ⟨2, 1⟩, .low, false, true⟩)] 1).length = 2) ∧
        regLookup (registryAfterRenderError
          [(0, ⟨some ⟨2, 1⟩, .low, false, true⟩),
           (1, ⟨some ⟨2, 1⟩, .low, false, true⟩),
           (2, ⟨some ⟨2, 1⟩, .low, false, true⟩)] 1) 1 = none) := by
  intro h
  exact absurd h.1 (by simp [registryAfterRenderError])

/-- C1 (amended): a render error in one session terminates exactly that
session's loop and runs its teardown (next = none records break followed by
_destroy), every other live session is untouched, and the registry is
unchanged: the failed session is not removed from the live-session map by
the failure (only a later disconnect event removes it). -/
theorem renderError_fault_isolation (r : Registry) (id : ℕ) (c : ClientState)
    (_hmem : regLookup r id = some c) (hstop : c.stopClient = false)
    (htrig : c.renderTrigger = true) :
    (runStep c .renderError).next = none ∧
    (runStep c .renderError).bodyExecuted = true ∧
    registryAfterRenderError r id = r ∧
    (∀ j, regLookup (registryAfterRenderError r id) j = regLookup r j) ∧
    (registryAfterRenderError r id).length = r.length := by
  have h1 : runStep c .renderError = ⟨none, true, false⟩ := by
    rw [runStep]
    rw [hstop, htrig]
    simp only [Bool.false_eq_true, if_false, if_true]
    cases hc : ({ c with renderTrigger := false } : ClientState).lastCamera <;>
      simp [renderAndSendResult, hc]
  exact ⟨by rw [h1], by rw [h1], rfl, fun j => rfl, rfl⟩

/-- Witness for C1 at a concrete three-session registry in which session 1
fails. -/
theorem renderError_fault_isolation_witness :
    (runStep (⟨some ⟨2, 1⟩, .low, false, true⟩ : ClientState) .renderError).next = none ∧
    (runStep (⟨some ⟨2, 1⟩, .low, false, true⟩ : ClientState) .renderError).bodyExecuted = true ∧
    registryAfterRenderError
      [(0, ⟨some ⟨2, 1⟩, .low, false, true⟩),
       (1, ⟨some ⟨2, 1⟩, .low, false, true⟩),
       (2, ⟨some ⟨2, 1⟩, .low, false, true⟩)] 1 =
      [(0, ⟨some ⟨2, 1⟩, .low, false, true⟩),
       (1, ⟨some ⟨2, 1⟩, .low, false, true⟩),
       (2, ⟨some ⟨2, 1⟩, .low, false, true⟩)] ∧
    (∀ j, regLookup (registryAfterRenderError
      [(0, ⟨some ⟨2, 1⟩, .low, false, true⟩),
       (1, ⟨some ⟨2, 1⟩, .low, false, true⟩),
       (2, ⟨some ⟨2, 1⟩, .low, false, true⟩)] 1) j =
      regLookup
      [(0, ⟨some ⟨2, 1⟩, .low, false, true⟩),
       (1, ⟨some ⟨2, 1⟩, .low, false, true⟩),
       (2, ⟨some ⟨2, 1⟩, .low, false, true⟩)] j) ∧
    (registryAfterRenderError
      [(0, ⟨some ⟨2, 1⟩, .low, false, true⟩),
       (1, ⟨some ⟨2, 1⟩, .low, false, true⟩),
       (2, ⟨some ⟨2, 1⟩, .low, false, true⟩)] 1).length = 3 :=
  renderError_fault_isolation
    [(0, ⟨some ⟨2, 1⟩, .low, false, true⟩),
     (1, ⟨some ⟨2, 1⟩, .low, false, true⟩),
     (2, ⟨some ⟨2, 1⟩, .low, false, true⟩)] 1
    ⟨some ⟨2, 1⟩, .low, false, true⟩ rfl rfl rfl

theorem vnormalize_down : vnormalize ⟨0, 0, -1⟩ = (⟨0, 0, -1⟩ : Vec3) :=
  vnormalize_unit (by norm_num [vnormSq])

theorem vnormalize_up : vnormalize ⟨0, 0, 1⟩ = (⟨0, 0, 1⟩ : Vec3) :=
  vnormalize_unit (by norm_num [vnormSq])

theorem nearlyOpposite_down_up :
    nearlyOpposite (vdot ⟨0, 0, -1⟩ ⟨0, 0, 1⟩) = true := by
  simp only [nearlyOpposite, vdot, decide_eq_true_eq]
  norm_num

theorem rotationMatrixAux_step (k : ℕ) (rand : ℕ → Vec3) :
    rotationMatrixAux (k + 1) rand ⟨0, 0, -1⟩ ⟨0, 0, 1⟩ =
      rotationMatrixAux k (fun j => rand (j + 1))
        (vadd ⟨0, 0, -1⟩ (vsmul (1 / 100) (vsub (rand 0) ⟨1 / 2, 1 / 2, 1 / 2⟩)))
        ⟨0, 0, 1⟩ := by
  rw [rotationMatrixAux]
  simp only [vnormalize_down, vnormalize_up, nearlyOpposite_down_up, if_true]

theorem halfStream_eps_zero :
    vadd ⟨0, 0, -1⟩ (vsmul (1 / 100) (vsub (halfStream 0) ⟨1 / 2, 1 / 2, 1 / 2⟩)) =
      (⟨0, 0, -1⟩ : Vec3) := by
  simp [halfStream, vadd, vsmul, vsub]

/-- C8: the orientation solver's rotation-matrix recursion does not
terminate on all inputs.  On the exactly anti-parallel pair (0, 0, -1) and
(0, 0, 1), if every torch.rand(3) draw returns (0.5, 0.5, 0.5) the
perturbation eps = (rand(3) - 0.5) * 0.01 is zero, the anti-parallel test
stays true and the recursion calls itself forever: for every bound on the
number of calls the computation fails to return a matrix. -/
theorem rotationMatrix_diverges_on_antiparallel (n : ℕ) :
    rotationMatrixAux n halfStream ⟨0, 0, -1⟩ ⟨0, 0, 1⟩ = none := by
  induction n with
  | zero => rfl
  | succ k ih =>
      rw [rotationMatrixAux_step, halfStream_eps_zero]
      exact ih

theorem pyInt_of_nonneg {q : ℚ} (h : 0 ≤ q) : pyInt q = ⌊q⌋ := if_pos h

theorem abs_div_sub_le {w h a m : ℚ} (hh : 0 < h) (key : |w - a * h| ≤ m) :
    |w / h - a| ≤ m / h := by
  have hne : h ≠ 0 := ne_of_gt hh
  have e : w / h - a = (w - a * h) / h := by
    field_simp
    ring
  rw [e, abs_div, abs_of_pos hh]
  gcongr

/-- C2 counterexample: for aspect ratio 200 and resolution cap 100 the
computed height is 0, and the ratio clause fails at this input (with the
division-by-zero convention of the rationals the deviation is 200 while the
allowed rounding deviation collapses to 0). -/
theorem calculateResolution_ratio_fails_large_aspect :
    (calculateResolution 100 200).2 = 0 ∧
    ¬ (|((calculateResolution 100 200).1 : ℚ) / ((calculateResolution 100 200).2 : ℚ) - 200|
        ≤ max 1 200 / ((calculateResolution 100 200).2 : ℚ)) := by
  have h1 : pyInt ((100 : ℚ) * 200) = 20000 := by
    rw [pyInt_of_nonneg (by norm_num)]
    norm_num
  have h2 : pyInt ((100 : ℚ) / 200) = 0 := by
    rw [pyInt_of_nonneg (by norm_num)]
    norm_num
  have e : calculateResolution 100 200 = (100, 0) := by
    simp [calculateResolution, h1, h2]
  constructor
  · rw [e]
  · intro hcontra
    rw [e] at hcontra
    norm_num at hcontra

/-- C2 (amended): for every positive resolution cap and every positive
aspect ratio not exceeding the cap, the resolution computation returns a
width and a height that are each at most the cap, the height is positive,
and the ratio width/height differs from the requested aspect ratio by at
most one unit of integer rounding, namely by at most max(1, aspect)/height
(the deviation a single int() truncation of one dimension can introduce).
When the aspect ratio exceeds the cap the computed height is 0 and no ratio
exists; the cap bounds themselves hold for every positive aspect ratio. -/
theorem calculateResolution_spec (maxRes : ℤ) (aspect : ℚ)
    (hM : 0 < maxRes) (ha : 0 < aspect) (haM : aspect ≤ (maxRes : ℚ)) :
    (calculateResolution maxRes aspect).1 ≤ maxRes ∧
    (calculateResolution maxRes aspect).2 ≤ maxRes ∧
    0 < (calculateResolution maxRes aspect).2 ∧
    |((calculateResolution maxRes aspect).1 : ℚ) /
        ((calculateResolution maxRes aspect).2 : ℚ) - aspect|
      ≤ max 1 aspect / ((calculateResolution maxRes aspect).2 : ℚ) := by
  have hMq : (0 : ℚ) < (maxRes : ℚ) := by exact_mod_cast hM
  have hprod : (0 : ℚ) ≤ (maxRes : ℚ) * aspect := le_of_lt (mul_pos hMq ha)
  have hquot : (0 : ℚ) ≤ (maxRes : ℚ) / aspect := le_of_lt (div_pos hMq ha)
  by_cases hbr : pyInt ((maxRes : ℚ) * aspect) > maxRes
  · have hres : calculateResolution maxRes aspect =
        (maxRes, pyInt ((maxRes : ℚ) / aspect)) := by
      simp [calculateResolution, hbr]
    rw [hres]
    set h1 : ℤ := pyInt ((maxRes : ℚ) / aspect) with hh1
    rw [pyInt_of_nonneg hquot] at hh1
    have f1 : (h1 : ℚ) ≤ (maxRes : ℚ) / aspect := by
      rw [hh1]
      exact Int.floor_le _
    have f2 : (maxRes : ℚ) / aspect < (h1 : ℚ) + 1 := by
      rw [hh1]
      exact_mod_cast Int.lt_floor_add_one ((maxRes : ℚ) / aspect)
    have hb : ((maxRes : ℚ) + 1) ≤ (maxRes : ℚ) * aspect := by
      rw [pyInt_of_nonneg hprod] at hbr
      have h0 : maxRes + 1 ≤ ⌊(maxRes : ℚ) * aspect⌋ := by omega
      have h3 := Int.le_floor.mp h0
      push_cast at h3
      exact h3
    have ha1 : 1 < aspect := by nlinarith
    have g1 : (h1 : ℚ) * aspect ≤ (maxRes : ℚ) := (le_div_iff₀ ha).mp f1
    have g2 : (maxRes : ℚ) < ((h1 : ℚ) + 1) * aspect := (div_lt_iff₀ ha).mp f2
    have h1pos : 0 < h1 := by
      have h4 : (1 : ℤ) ≤ h1 := by
        rw [hh1]
        refine Int.le_floor.mpr ?_
        push_cast
        exact (one_le_div ha).mpr haM
      omega
    have h1q : (0 : ℚ) < (h1 : ℚ) := by exact_mod_cast h1pos
    have hle : h1 ≤ maxRes := by
      have hds : (maxRes : ℚ) / aspect ≤ (maxRes : ℚ) :=
        div_le_self (le_of_lt hMq) (le_of_lt ha1)
      have h5 : (h1 : ℚ) ≤ (maxRes : ℚ) := le_trans f1 hds
      exact_mod_cast h5
    refine ⟨le_refl _, hle, h1pos, ?_⟩
    have key : |(maxRes : ℚ) - aspect * (h1 : ℚ)| ≤ max 1 aspect := by
      rw [abs_le]
      constructor
      · nlinarith [le_max_left (1 : ℚ) aspect]
      · nlinarith [le_max_right (1 : ℚ) aspect]
    exact abs_div_sub_le h1q key
  · have hres : calculateResolution maxRes aspect =
        (pyInt ((maxRes : ℚ) * aspect), maxRes) := by
      simp [calculateResolution, hbr]
    rw [hres]
    set w0 : ℤ := pyInt ((maxRes : ℚ) * aspect) with hw0
    rw [pyInt_of_nonneg hprod] at hw0
    have f1 : (w0 : ℚ) ≤ (maxRes : ℚ) * aspect := by
      rw [hw0]
      exact Int.floor_le _
    have f2 : (maxRes : ℚ) * aspect < (w0 : ℚ) + 1 := by
      rw [hw0]
      exact_mod_cast Int.lt_floor_add_one ((maxRes : ℚ) * aspect)
    have hle : w0 ≤ maxRes := le_of_not_lt hbr
    refine ⟨hle, le_refl _, hM, ?_⟩
    have key : |(w0 : ℚ) - aspect * (maxRes : ℚ)| ≤ max 1 aspect := by
      rw [abs_le]
      constructor
      · nlinarith [le_max_left (1 : ℚ) aspect]
      · nlinarith [le_max_left (1 : ℚ) aspect]
    exact abs_div_sub_le hMq key

/-- Witness for C2 at the concrete cap 1920 and aspect ratio 16/9. -/
theorem calculateResolution_spec_witness :
    (calculateResolution 1920 (16 / 9)).1 ≤ 1920 ∧
    (calculateResolution 1920 (16 / 9)).2 ≤ 1920 ∧
    0 < (calculateResolution 1920 (16 / 9)).2 ∧
    |((calculateResolution 1920 (16 / 9)).1 : ℚ) /
        ((calculateResolution 1920 (16 / 9)).2 : ℚ) - 16 / 9|
      ≤ max 1 (16 / 9) / ((calculateResolution 1920 (16 / 9)).2 : ℚ) :=
  calculateResolution_spec 1920 (16 / 9) (by norm_num) (by norm_num) (by norm_num)

end GSViewer
